import Mathlib

/-!
# m3.js: 2D affine math on flat 3x3 matrices

A shallow embedding of `src/index.js` (the `webgl-2d-math` module).

* A `Matrix3` is the flat, row-major sequence of nine numbers of the source:
  entry `r * 3 + c` is row `r`, column `c`.  It is modelled as a function on
  `Fin 9`, written with the vector literal `![m0, ..., m8]`.
* A point is a pair; `v[0]` and `v[1]` of the source are `v.1` and `v.2`.
* Numbers are the elements of a field `F` (exact arithmetic).  The purely
  arithmetic functions are generic in `F`, so they evaluate on `ℚ`; the
  functions that call `Math.sqrt`, `Math.cos`, `Math.sin` or `Math.PI` are
  stated over `ℝ`.
* The namespace `Binary64` holds a second embedding of the arithmetic functions, over
  JavaScript numbers: IEEE-754 binary64 values with `-0`, the two infinities and `NaN`,
  every operation rounding its exact result to nearest, ties to even.  It decides what
  the code returns where rounding, overflow or division by zero matter.
-/

namespace M3

/-- An array with 9 values, row-major. -/
abbrev Matrix3 (F : Type) := Fin 9 → F

/-- A two-element array `[x, y]`. -/
abbrev Point2 (F : Type) := F × F

section Generic

variable {F : Type} [Field F]

/-- Function `multiply(a, b)` of the source, lines 53-84. -/
def multiply (a b : Matrix3 F) : Matrix3 F :=
  let a00 := a (0 * 3 + 0)
  let a01 := a (0 * 3 + 1)
  let a02 := a (0 * 3 + 2)
  let a10 := a (1 * 3 + 0)
  let a11 := a (1 * 3 + 1)
  let a12 := a (1 * 3 + 2)
  let a20 := a (2 * 3 + 0)
  let a21 := a (2 * 3 + 1)
  let a22 := a (2 * 3 + 2)
  let b00 := b (0 * 3 + 0)
  let b01 := b (0 * 3 + 1)
  let b02 := b (0 * 3 + 2)
  let b10 := b (1 * 3 + 0)
  let b11 := b (1 * 3 + 1)
  let b12 := b (1 * 3 + 2)
  let b20 := b (2 * 3 + 0)
  let b21 := b (2 * 3 + 1)
  let b22 := b (2 * 3 + 2)
  ![b00 * a00 + b01 * a10 + b02 * a20,
    b00 * a01 + b01 * a11 + b02 * a21,
    b00 * a02 + b01 * a12 + b02 * a22,
    b10 * a00 + b11 * a10 + b12 * a20,
    b10 * a01 + b11 * a11 + b12 * a21,
    b10 * a02 + b11 * a12 + b12 * a22,
    b20 * a00 + b21 * a10 + b22 * a20,
    b20 * a01 + b21 * a11 + b22 * a21,
    b20 * a02 + b21 * a12 + b22 * a22]

/-- Function `identity()` of the source, lines 91-97. -/
def identity : Matrix3 F :=
  ![1, 0, 0,
    0, 1, 0,
    0, 0, 1]

/-- Function `projection(width, height)` of the source, lines 106-113. -/
def projection (width height : F) : Matrix3 F :=
  ![2 / width, 0, 0,
    0, -2 / height, 0,
    -1, 1, 1]

/-- Function `project(m, width, height)` of the source, lines 123-125. -/
def project (m : Matrix3 F) (width height : F) : Matrix3 F :=
  multiply m (projection width height)

/-- Function `translation(tx, ty)` of the source, lines 134-140. -/
def translation (tx ty : F) : Matrix3 F :=
  ![1, 0, 0,
    0, 1, 0,
    tx, ty, 1]

/-- Function `translate(m, tx, ty)` of the source, lines 150-152. -/
def translate (m : Matrix3 F) (tx ty : F) : Matrix3 F :=
  multiply m (translation tx ty)

/-- Function `scaling(sx, sy)` of the source, lines 188-194. -/
def scaling (sx sy : F) : Matrix3 F :=
  ![sx, 0, 0,
    0, sy, 0,
    0, 0, 1]

/-- Function `scale(m, sx, sy)` of the source, lines 204-206. -/
def scale (m : Matrix3 F) (sx sy : F) : Matrix3 F :=
  multiply m (scaling sx sy)

/-- Function `dot(x1, y1, x2, y2)` of the source, lines 217-219. -/
def dot (x1 y1 x2 y2 : F) : F :=
  x1 * x2 + y1 * y2

/-- Function `reflect(ix, iy, nx, ny)` of the source, lines 261-268. -/
def reflect (ix iy nx ny : F) : Point2 F :=
  let d := dot nx ny ix iy
  (ix - 2 * d * nx,
   iy - 2 * d * ny)

/-- The local `d` of `transformPoint` (line 298): the homogeneous divisor. -/
def transformPointDivisor (m : Matrix3 F) (v : Point2 F) : F :=
  let v0 := v.1
  let v1 := v.2
  v0 * m (0 * 3 + 2) + v1 * m (1 * 3 + 2) + m (2 * 3 + 2)

/-- Function `transformPoint(m, v)` of the source, lines 295-303. -/
def transformPoint (m : Matrix3 F) (v : Point2 F) : Point2 F :=
  let v0 := v.1
  let v1 := v.2
  let d := transformPointDivisor m v
  ((v0 * m (0 * 3 + 0) + v1 * m (1 * 3 + 0) + m (2 * 3 + 0)) / d,
   (v0 * m (0 * 3 + 1) + v1 * m (1 * 3 + 1) + m (2 * 3 + 1)) / d)

/-- Function `inverse(m)` of the source, lines 311-325. -/
def inverse (m : Matrix3 F) : Matrix3 F :=
  let t00 := m (1 * 3 + 1) * m (2 * 3 + 2) - m (1 * 3 + 2) * m (2 * 3 + 1)
  let t10 := m (0 * 3 + 1) * m (2 * 3 + 2) - m (0 * 3 + 2) * m (2 * 3 + 1)
  let t20 := m (0 * 3 + 1) * m (1 * 3 + 2) - m (0 * 3 + 2) * m (1 * 3 + 1)
  let d := 1 / (m (0 * 3 + 0) * t00 - m (1 * 3 + 0) * t10 + m (2 * 3 + 0) * t20)
  ![d * t00, -d * t10, d * t20,
    -d * (m (1 * 3 + 0) * m (2 * 3 + 2) - m (1 * 3 + 2) * m (2 * 3 + 0)),
    d * (m (0 * 3 + 0) * m (2 * 3 + 2) - m (0 * 3 + 2) * m (2 * 3 + 0)),
    -d * (m (0 * 3 + 0) * m (1 * 3 + 2) - m (0 * 3 + 2) * m (1 * 3 + 0)),
    d * (m (1 * 3 + 0) * m (2 * 3 + 1) - m (1 * 3 + 1) * m (2 * 3 + 0)),
    -d * (m (0 * 3 + 0) * m (2 * 3 + 1) - m (0 * 3 + 1) * m (2 * 3 + 0)),
    d * (m (0 * 3 + 0) * m (1 * 3 + 1) - m (0 * 3 + 1) * m (1 * 3 + 0))]

/-- The third column of `m` is `(0, 0, 1)`: entries 2, 5 and 8. -/
def IsAffine (m : Matrix3 F) : Prop :=
  m 2 = 0 ∧ m 5 = 0 ∧ m 8 = 1

end Generic

section RealFunctions

/-- Function `rotation(angleInRadians)` of the source, lines 160-168. -/
noncomputable def rotation (angleInRadians : ℝ) : Matrix3 ℝ :=
  let c := Real.cos angleInRadians
  let s := Real.sin angleInRadians
  ![c, -s, 0,
    s, c, 0,
    0, 0, 1]

/-- Function `rotate(m, angleInRadians)` of the source, lines 177-179. -/
noncomputable def rotate (m : Matrix3 ℝ) (angleInRadians : ℝ) : Matrix3 ℝ :=
  multiply m (rotation angleInRadians)

/-- Function `distance(x1, y1, x2, y2)` of the source, lines 230-234. -/
noncomputable def distance (x1 y1 x2 y2 : ℝ) : ℝ :=
  let dx := x1 - x2
  let dy := y1 - y2
  Real.sqrt (dx * dx + dy * dy)

/-- Function `normalize(x, y)` of the source, lines 243-250. -/
noncomputable def normalize (x y : ℝ) : Point2 ℝ :=
  let l := distance 0 0 x y
  if l > 0.00001 then
    (x / l, y / l)
  else
    (0, 0)

/-- Function `radToDeg(r)` of the source, lines 275-277. -/
noncomputable def radToDeg (r : ℝ) : ℝ :=
  r * 180 / Real.pi

/-- Function `degToRad(d)` of the source, lines 284-286. -/
noncomputable def degToRad (d : ℝ) : ℝ :=
  d * Real.pi / 180

end RealFunctions

/-! ## The same functions over binary64 -/

namespace Binary64

/-- A JavaScript number: a finite value (`num 0` is `+0`), `-0`, an infinity with its sign
bit (`true` for `-Infinity`), or `NaN`. -/
inductive Dbl
  | num (q : ℚ)
  | negZero
  | inf (neg : Bool)
  | nan
deriving DecidableEq

namespace Dbl

/-- Test for `NaN`. -/
def isNaN : Dbl → Bool
  | nan => true
  | _ => false

/-- Test for `Infinity` and `-Infinity`. -/
def isInf : Dbl → Bool
  | inf _ => true
  | _ => false

/-- Test for `+0` and `-0`. -/
def isZero : Dbl → Bool
  | num q => decide (q = 0)
  | negZero => true
  | _ => false

/-- The sign bit (`true` for negative). -/
def sign : Dbl → Bool
  | num q => decide (q < 0)
  | negZero => true
  | inf s => s
  | nan => false

/-- The value of a finite number (0 for the others). -/
def val : Dbl → ℚ
  | num q => q
  | _ => 0

/-- The zero with the given sign bit. -/
def zero (s : Bool) : Dbl :=
  if s then negZero else num 0

/-- Two to the power `e`. -/
def pow2 (e : ℤ) : ℚ :=
  if 0 ≤ e then ((2 ^ e.toNat : ℕ) : ℚ) else 1 / ((2 ^ (-e).toNat : ℕ) : ℚ)

/-- Bisection in `n` halvings: the largest `e` in `[lo, hi)` with `2^e ≤ a`, or `lo` if
there is none. -/
def expoSearch (a : ℚ) : ℕ → ℤ → ℤ → ℤ
  | 0, lo, _ => lo
  | n + 1, lo, hi =>
    if pow2 ((lo + hi) / 2) ≤ a then expoSearch a n ((lo + hi) / 2) hi
    else expoSearch a n lo ((lo + hi) / 2)

/-- The binary64 exponent of `0 < a < 2^1024`: `floor(log2 a)`, but not below `-1022`
(the exponent of the subnormal numbers). -/
def expo (a : ℚ) : ℤ :=
  expoSearch a 11 (-1022) 1024

/-- Round a non-negative rational to the nearest integer, ties to even. -/
def roundHalfEven (x : ℚ) : ℤ :=
  let f := Rat.floor x
  let r := x - f
  if r < 1 / 2 then f else if 1 / 2 < r then f + 1 else if f % 2 = 0 then f else f + 1

/-- Round an exact result to binary64: 53-bit significand, exponents `-1022` to `1023`,
round to nearest, ties to even, overflow to the infinity of the same sign, underflow to the
zero of the same sign; an exact zero gives `+0`. -/
def roundToDouble (x : ℚ) : Dbl :=
  if x = 0 then num 0
  else
    let a := if x < 0 then -x else x
    if pow2 1024 ≤ a then inf (decide (x < 0))
    else
      let ulp := pow2 (expo a - 52)
      let y := (roundHalfEven (a / ulp) : ℚ) * ulp
      if pow2 1024 ≤ y then inf (decide (x < 0))
      else if y = 0 then zero (decide (x < 0))
      else num (if x < 0 then -y else y)

/-- The operator `*` of JavaScript numbers. -/
def mul (x y : Dbl) : Dbl :=
  if x.isNaN || y.isNaN then nan
  else if x.isInf || y.isInf then
    (if x.isZero || y.isZero then nan else inf (xor x.sign y.sign))
  else if x.isZero || y.isZero then zero (xor x.sign y.sign)
  else roundToDouble (x.val * y.val)

/-- The operator `+` of JavaScript numbers. -/
def add (x y : Dbl) : Dbl :=
  if x.isNaN || y.isNaN then nan
  else if x.isInf then (if y.isInf && (x.sign != y.sign) then nan else x)
  else if y.isInf then y
  else if x.isZero && y.isZero then zero (x.sign && y.sign)
  else roundToDouble (x.val + y.val)

/-- Unary minus of JavaScript numbers. -/
def neg : Dbl → Dbl
  | num q => if q = 0 then negZero else num (-q)
  | negZero => num 0
  | inf s => inf (!s)
  | nan => nan

/-- The binary operator `-` of JavaScript numbers. -/
def sub (x y : Dbl) : Dbl :=
  add x (neg y)

/-- The operator `/` of JavaScript numbers. -/
def div (x y : Dbl) : Dbl :=
  if x.isNaN || y.isNaN then nan
  else if x.isInf then (if y.isInf then nan else inf (xor x.sign y.sign))
  else if y.isInf then zero (xor x.sign y.sign)
  else if y.isZero then (if x.isZero then nan else inf (xor x.sign y.sign))
  else if x.isZero then zero (xor x.sign y.sign)
  else roundToDouble (x.val / y.val)

instance : Add Dbl := ⟨add⟩

instance : Sub Dbl := ⟨sub⟩

instance : Mul Dbl := ⟨mul⟩

instance : Div Dbl := ⟨div⟩

instance : Neg Dbl := ⟨neg⟩

/-- Small integer literals (`0`, `1`, `2`, ...) are exact. -/
instance (n : ℕ) : OfNat Dbl n := ⟨num n⟩

end Dbl

open Dbl

/-- Function `multiply(a, b)` of the source, lines 53-84, over binary64. -/
def multiply (a b : Matrix3 Dbl) : Matrix3 Dbl :=
  let a00 := a (0 * 3 + 0)
  let a01 := a (0 * 3 + 1)
  let a02 := a (0 * 3 + 2)
  let a10 := a (1 * 3 + 0)
  let a11 := a (1 * 3 + 1)
  let a12 := a (1 * 3 + 2)
  let a20 := a (2 * 3 + 0)
  let a21 := a (2 * 3 + 1)
  let a22 := a (2 * 3 + 2)
  let b00 := b (0 * 3 + 0)
  let b01 := b (0 * 3 + 1)
  let b02 := b (0 * 3 + 2)
  let b10 := b (1 * 3 + 0)
  let b11 := b (1 * 3 + 1)
  let b12 := b (1 * 3 + 2)
  let b20 := b (2 * 3 + 0)
  let b21 := b (2 * 3 + 1)
  let b22 := b (2 * 3 + 2)
  ![b00 * a00 + b01 * a10 + b02 * a20,
    b00 * a01 + b01 * a11 + b02 * a21,
    b00 * a02 + b01 * a12 + b02 * a22,
    b10 * a00 + b11 * a10 + b12 * a20,
    b10 * a01 + b11 * a11 + b12 * a21,
    b10 * a02 + b11 * a12 + b12 * a22,
    b20 * a00 + b21 * a10 + b22 * a20,
    b20 * a01 + b21 * a11 + b22 * a21,
    b20 * a02 + b21 * a12 + b22 * a22]

/-- Function `identity()` of the source, lines 91-97, over binary64. -/
def identity : Matrix3 Dbl :=
  ![1, 0, 0,
    0, 1, 0,
    0, 0, 1]

/-- Function `projection(width, height)` of the source, lines 106-113, over binary64. -/
def projection (width height : Dbl) : Matrix3 Dbl :=
  ![2 / width, 0, 0,
    0, (-2) / height, 0,
    -1, 1, 1]

/-- Function `project(m, width, height)` of the source, lines 123-125, over binary64. -/
def project (m : Matrix3 Dbl) (width height : Dbl) : Matrix3 Dbl :=
  multiply m (projection width height)

/-- Function `translation(tx, ty)` of the source, lines 134-140, over binary64. -/
def translation (tx ty : Dbl) : Matrix3 Dbl :=
  ![1, 0, 0,
    0, 1, 0,
    tx, ty, 1]

/-- Function `translate(m, tx, ty)` of the source, lines 150-152, over binary64. -/
def translate (m : Matrix3 Dbl) (tx ty : Dbl) : Matrix3 Dbl :=
  multiply m (translation tx ty)

/-- Function `scaling(sx, sy)` of the source, lines 188-194, over binary64. -/
def scaling (sx sy : Dbl) : Matrix3 Dbl :=
  ![sx, 0, 0,
    0, sy, 0,
    0, 0, 1]

/-- Function `scale(m, sx, sy)` of the source, lines 204-206, over binary64. -/
def scale (m : Matrix3 Dbl) (sx sy : Dbl) : Matrix3 Dbl :=
  multiply m (scaling sx sy)

/-- Function `dot(x1, y1, x2, y2)` of the source, lines 217-219, over binary64. -/
def dot (x1 y1 x2 y2 : Dbl) : Dbl :=
  x1 * x2 + y1 * y2

/-- Function `reflect(ix, iy, nx, ny)` of the source, lines 261-268, over binary64. -/
def reflect (ix iy nx ny : Dbl) : Point2 Dbl :=
  let d := dot nx ny ix iy
  (ix - 2 * d * nx,
   iy - 2 * d * ny)

/-- The local `d` of `transformPoint` (line 298), over binary64. -/
def transformPointDivisor (m : Matrix3 Dbl) (v : Point2 Dbl) : Dbl :=
  let v0 := v.1
  let v1 := v.2
  v0 * m (0 * 3 + 2) + v1 * m (1 * 3 + 2) + m (2 * 3 + 2)

/-- Function `transformPoint(m, v)` of the source, lines 295-303, over binary64. -/
def transformPoint (m : Matrix3 Dbl) (v : Point2 Dbl) : Point2 Dbl :=
  let v0 := v.1
  let v1 := v.2
  let d := transformPointDivisor m v
  ((v0 * m (0 * 3 + 0) + v1 * m (1 * 3 + 0) + m (2 * 3 + 0)) / d,
   (v0 * m (0 * 3 + 1) + v1 * m (1 * 3 + 1) + m (2 * 3 + 1)) / d)

/-- The computed determinant of `inverse`: the denominator of its local `d` (line 315),
over binary64. -/
def inverseDet (m : Matrix3 Dbl) : Dbl :=
  let t00 := m (1 * 3 + 1) * m (2 * 3 + 2) - m (1 * 3 + 2) * m (2 * 3 + 1)
  let t10 := m (0 * 3 + 1) * m (2 * 3 + 2) - m (0 * 3 + 2) * m (2 * 3 + 1)
  let t20 := m (0 * 3 + 1) * m (1 * 3 + 2) - m (0 * 3 + 2) * m (1 * 3 + 1)
  m (0 * 3 + 0) * t00 - m (1 * 3 + 0) * t10 + m (2 * 3 + 0) * t20

/-- Function `inverse(m)` of the source, lines 311-325, over binary64. -/
def inverse (m : Matrix3 Dbl) : Matrix3 Dbl :=
  let t00 := m (1 * 3 + 1) * m (2 * 3 + 2) - m (1 * 3 + 2) * m (2 * 3 + 1)
  let t10 := m (0 * 3 + 1) * m (2 * 3 + 2) - m (0 * 3 + 2) * m (2 * 3 + 1)
  let t20 := m (0 * 3 + 1) * m (1 * 3 + 2) - m (0 * 3 + 2) * m (1 * 3 + 1)
  let d := 1 / (m (0 * 3 + 0) * t00 - m (1 * 3 + 0) * t10 + m (2 * 3 + 0) * t20)
  ![d * t00, -d * t10, d * t20,
    -d * (m (1 * 3 + 0) * m (2 * 3 + 2) - m (1 * 3 + 2) * m (2 * 3 + 0)),
    d * (m (0 * 3 + 0) * m (2 * 3 + 2) - m (0 * 3 + 2) * m (2 * 3 + 0)),
    -d * (m (0 * 3 + 0) * m (1 * 3 + 2) - m (0 * 3 + 2) * m (1 * 3 + 0)),
    d * (m (1 * 3 + 0) * m (2 * 3 + 1) - m (1 * 3 + 1) * m (2 * 3 + 0)),
    -d * (m (0 * 3 + 0) * m (2 * 3 + 1) - m (0 * 3 + 1) * m (2 * 3 + 0)),
    d * (m (0 * 3 + 0) * m (1 * 3 + 1) - m (0 * 3 + 1) * m (1 * 3 + 0))]

end Binary64

/-! ## Shared lemmas -/

section Entries

variable {F : Type}

@[simp]
theorem vec9_0 (x0 x1 x2 x3 x4 x5 x6 x7 x8 : F) :
    (![x0, x1, x2, x3, x4, x5, x6, x7, x8] : Matrix3 F) 0 = x0 := rfl

@[simp]
theorem vec9_1 (x0 x1 x2 x3 x4 x5 x6 x7 x8 : F) :
    (![x0, x1, x2, x3, x4, x5, x6, x7, x8] : Matrix3 F) 1 = x1 := rfl

@[simp]
theorem vec9_2 (x0 x1 x2 x3 x4 x5 x6 x7 x8 : F) :
    (![x0, x1, x2, x3, x4, x5, x6, x7, x8] : Matrix3 F) 2 = x2 := rfl

@[simp]
theorem vec9_3 (x0 x1 x2 x3 x4 x5 x6 x7 x8 : F) :
    (![x0, x1, x2, x3, x4, x5, x6, x7, x8] : Matrix3 F) 3 = x3 := rfl

@[simp]
theorem vec9_4 (x0 x1 x2 x3 x4 x5 x6 x7 x8 : F) :
    (![x0, x1, x2, x3, x4, x5, x6, x7, x8] : Matrix3 F) 4 = x4 := rfl

@[simp]
theorem vec9_5 (x0 x1 x2 x3 x4 x5 x6 x7 x8 : F) :
    (![x0, x1, x2, x3, x4, x5, x6, x7, x8] : Matrix3 F) 5 = x5 := rfl

@[simp]
theorem vec9_6 (x0 x1 x2 x3 x4 x5 x6 x7 x8 : F) :
    (![x0, x1, x2, x3, x4, x5, x6, x7, x8] : Matrix3 F) 6 = x6 := rfl

@[simp]
theorem vec9_7 (x0 x1 x2 x3 x4 x5 x6 x7 x8 : F) :
    (![x0, x1, x2, x3, x4, x5, x6, x7, x8] : Matrix3 F) 7 = x7 := rfl

@[simp]
theorem vec9_8 (x0 x1 x2 x3 x4 x5 x6 x7 x8 : F) :
    (![x0, x1, x2, x3, x4, x5, x6, x7, x8] : Matrix3 F) 8 = x8 := rfl

/-- Two matrices with the same nine entries are equal. -/
theorem ext9 {a b : Matrix3 F} (h0 : a 0 = b 0) (h1 : a 1 = b 1) (h2 : a 2 = b 2)
    (h3 : a 3 = b 3) (h4 : a 4 = b 4) (h5 : a 5 = b 5) (h6 : a 6 = b 6)
    (h7 : a 7 = b 7) (h8 : a 8 = b 8) : a = b := by
  funext i
  fin_cases i <;> assumption

end Entries

section Lemmas

variable {F : Type} [Field F]

/-- The entries of `multiply a b`, with the index arithmetic `r * 3 + c` evaluated. -/
theorem multiply_apply (a b : Matrix3 F) :
    multiply a b =
      ![b 0 * a 0 + b 1 * a 3 + b 2 * a 6,
        b 0 * a 1 + b 1 * a 4 + b 2 * a 7,
        b 0 * a 2 + b 1 * a 5 + b 2 * a 8,
        b 3 * a 0 + b 4 * a 3 + b 5 * a 6,
        b 3 * a 1 + b 4 * a 4 + b 5 * a 7,
        b 3 * a 2 + b 4 * a 5 + b 5 * a 8,
        b 6 * a 0 + b 7 * a 3 + b 8 * a 6,
        b 6 * a 1 + b 7 * a 4 + b 8 * a 7,
        b 6 * a 2 + b 7 * a 5 + b 8 * a 8] := rfl

theorem transformPointDivisor_apply (m : Matrix3 F) (v : Point2 F) :
    transformPointDivisor m v = v.1 * m 2 + v.2 * m 5 + m 8 := rfl

theorem transformPoint_apply (m : Matrix3 F) (v : Point2 F) :
    transformPoint m v =
      ((v.1 * m 0 + v.2 * m 3 + m 6) / (v.1 * m 2 + v.2 * m 5 + m 8),
       (v.1 * m 1 + v.2 * m 4 + m 7) / (v.1 * m 2 + v.2 * m 5 + m 8)) := rfl

/-- The entries of `inverse m`, with the index arithmetic evaluated. -/
theorem inverse_apply (m : Matrix3 F) :
    inverse m =
      ![1 / (m 0 * (m 4 * m 8 - m 5 * m 7) - m 3 * (m 1 * m 8 - m 2 * m 7)
            + m 6 * (m 1 * m 5 - m 2 * m 4)) * (m 4 * m 8 - m 5 * m 7),
        -(1 / (m 0 * (m 4 * m 8 - m 5 * m 7) - m 3 * (m 1 * m 8 - m 2 * m 7)
            + m 6 * (m 1 * m 5 - m 2 * m 4))) * (m 1 * m 8 - m 2 * m 7),
        1 / (m 0 * (m 4 * m 8 - m 5 * m 7) - m 3 * (m 1 * m 8 - m 2 * m 7)
            + m 6 * (m 1 * m 5 - m 2 * m 4)) * (m 1 * m 5 - m 2 * m 4),
        -(1 / (m 0 * (m 4 * m 8 - m 5 * m 7) - m 3 * (m 1 * m 8 - m 2 * m 7)
            + m 6 * (m 1 * m 5 - m 2 * m 4))) * (m 3 * m 8 - m 5 * m 6),
        1 / (m 0 * (m 4 * m 8 - m 5 * m 7) - m 3 * (m 1 * m 8 - m 2 * m 7)
            + m 6 * (m 1 * m 5 - m 2 * m 4)) * (m 0 * m 8 - m 2 * m 6),
        -(1 / (m 0 * (m 4 * m 8 - m 5 * m 7) - m 3 * (m 1 * m 8 - m 2 * m 7)
            + m 6 * (m 1 * m 5 - m 2 * m 4))) * (m 0 * m 5 - m 2 * m 3),
        1 / (m 0 * (m 4 * m 8 - m 5 * m 7) - m 3 * (m 1 * m 8 - m 2 * m 7)
            + m 6 * (m 1 * m 5 - m 2 * m 4)) * (m 3 * m 7 - m 4 * m 6),
        -(1 / (m 0 * (m 4 * m 8 - m 5 * m 7) - m 3 * (m 1 * m 8 - m 2 * m 7)
            + m 6 * (m 1 * m 5 - m 2 * m 4))) * (m 0 * m 7 - m 1 * m 6),
        1 / (m 0 * (m 4 * m 8 - m 5 * m 7) - m 3 * (m 1 * m 8 - m 2 * m 7)
            + m 6 * (m 1 * m 5 - m 2 * m 4)) * (m 0 * m 4 - m 1 * m 3)] := rfl

/-- On a matrix with third column `(0, 0, 1)` the divisor of `transformPoint` is 1. -/
theorem transformPoint_of_isAffine (m : Matrix3 F) (v : Point2 F) (hm : IsAffine m) :
    transformPoint m v = (v.1 * m 0 + v.2 * m 3 + m 6, v.1 * m 1 + v.2 * m 4 + m 7) := by
  obtain ⟨h2, h5, h8⟩ := hm
  rw [transformPoint_apply, h2, h5, h8]
  simp

end Lemmas

/-! ## C1: composition order of `multiply` -/

section C1

/-- C1 (as stated) fails: with `a = translation 1 2` and `b = scaling 2 5`, both with third
column `(0, 0, 1)`, the point `(3, 4)` is sent by `multiply a b` to `(7, 22)`, which is `a`
applied after `b`, while `b` applied after `a` gives `(8, 30)`; and the chain
`scale(translate(identity(), 1, 2), 2, 5)` sends `(3, 4)` to `(7, 22)`, not to
`((3 + 1) * 2, (4 + 2) * 5)`. -/
theorem C1_counterexample :
    IsAffine (translation (1 : ℚ) 2) ∧ IsAffine (scaling (2 : ℚ) 5) ∧
    transformPoint (multiply (translation (1 : ℚ) 2) (scaling 2 5)) (3, 4) = (7, 22) ∧
    transformPoint (scaling (2 : ℚ) 5) (transformPoint (translation 1 2) (3, 4)) = (8, 30) ∧
    transformPoint (multiply (translation (1 : ℚ) 2) (scaling 2 5)) (3, 4) ≠
      transformPoint (scaling 2 5) (transformPoint (translation 1 2) (3, 4)) ∧
    transformPoint (scale (translate identity 1 2) 2 5) ((3 : ℚ), 4) ≠
      ((3 + 1) * 2, (4 + 2) * 5) := by
  refine ⟨?_, ?_, ?_, ?_, ?_, ?_⟩
  · simp [IsAffine, translation]
  · simp [IsAffine, scaling]
  · simp [transformPoint_apply, multiply_apply, translation, scaling]
    norm_num
  · simp [transformPoint_apply, translation, scaling]
    norm_num
  · simp [transformPoint_apply, multiply_apply, translation, scaling]
    norm_num
  · simp [transformPoint_apply, multiply_apply, translation, scaling, scale, translate, identity]
    norm_num

variable {F : Type} [Field F]

/-- C1 (amended): for matrices `a` and `b` whose third column is `(0, 0, 1)` and every
point `v`, transforming `v` by `multiply a b` is transforming by `b` first and then by `a`;
a chain of combinators therefore applies the last call first:
`scale(translate(identity(), tx, ty), sx, sy)` sends `(x, y)` to `(x * sx + tx, y * sy + ty)`. -/
theorem C1_multiply_applies_b_then_a (a b : Matrix3 F) (v : Point2 F)
    (ha : IsAffine a) (hb : IsAffine b) (tx ty sx sy x y : F) :
    transformPoint (multiply a b) v = transformPoint a (transformPoint b v) ∧
    transformPoint (scale (translate identity tx ty) sx sy) (x, y) =
      (x * sx + tx, y * sy + ty) := by
  constructor
  · have hab : IsAffine (multiply a b) := by
      obtain ⟨a2, a5, a8⟩ := ha
      obtain ⟨b2, b5, b8⟩ := hb
      simp [IsAffine, multiply_apply, a2, a5, a8, b2, b5, b8]
    rw [transformPoint_of_isAffine _ _ hab, transformPoint_of_isAffine _ _ hb,
      transformPoint_of_isAffine _ _ ha]
    obtain ⟨b2, b5, b8⟩ := hb
    simp only [multiply_apply, vec9_0, vec9_1, vec9_3, vec9_4, vec9_6, vec9_7, b2, b5, b8,
      Prod.mk.injEq]
    constructor <;> ring
  · simp [transformPoint_apply, multiply_apply, translation, scaling, scale, translate, identity]

/-- The amended C1 at `a = translation 1 2`, `b = scaling 2 5`, `v = (3, 4)`. -/
theorem C1_multiply_applies_b_then_a_witness :
    IsAffine (translation (1 : ℚ) 2) ∧ IsAffine (scaling (2 : ℚ) 5) ∧
    (transformPoint (multiply (translation (1 : ℚ) 2) (scaling 2 5)) (3, 4) =
        transformPoint (translation 1 2) (transformPoint (scaling 2 5) (3, 4)) ∧
      transformPoint (scale (translate identity 1 2) 2 5) ((3 : ℚ), 4) =
        (3 * 2 + 1, 4 * 5 + 2)) :=
  ⟨by simp [IsAffine, translation], by simp [IsAffine, scaling],
    C1_multiply_applies_b_then_a (translation 1 2) (scaling 2 5) (3, 4)
      (by simp [IsAffine, translation]) (by simp [IsAffine, scaling]) 1 2 2 5 3 4⟩

end C1

/-! ## C2: `inverse` is the matrix inverse -/

section C2

variable {F : Type} [Field F]

/-- C2: for every matrix `M` whose determinant
`m[0]*(m[4]*m[8] - m[5]*m[7]) - m[3]*(m[1]*m[8] - m[2]*m[7]) + m[6]*(m[1]*m[5] - m[2]*m[4])`
is non-zero, `inverse M` is a two-sided inverse of `M` for `multiply`. -/
theorem C2_inverse_is_matrix_inverse (M : Matrix3 F)
    (hdet : M 0 * (M 4 * M 8 - M 5 * M 7) - M 3 * (M 1 * M 8 - M 2 * M 7)
      + M 6 * (M 1 * M 5 - M 2 * M 4) ≠ 0) :
    multiply (inverse M) M = identity ∧ multiply M (inverse M) = identity := by
  constructor
  · rw [multiply_apply, inverse_apply]
    apply ext9 <;> simp only [identity, vec9_0, vec9_1, vec9_2, vec9_3, vec9_4, vec9_5, vec9_6,
      vec9_7, vec9_8] <;> field_simp <;> ring
  · rw [multiply_apply, inverse_apply]
    apply ext9 <;> simp only [identity, vec9_0, vec9_1, vec9_2, vec9_3, vec9_4, vec9_5, vec9_6,
      vec9_7, vec9_8] <;> field_simp <;> ring

/-- C2 at the matrix `[2,1,0, 1,1,0, 3,4,1]`, whose determinant is `1`. -/
theorem C2_inverse_is_matrix_inverse_witness :
    (![2, 1, 0, 1, 1, 0, 3, 4, 1] : Matrix3 ℚ) 0
        * ((![2, 1, 0, 1, 1, 0, 3, 4, 1] : Matrix3 ℚ) 4 * (![2, 1, 0, 1, 1, 0, 3, 4, 1] : Matrix3 ℚ) 8
          - (![2, 1, 0, 1, 1, 0, 3, 4, 1] : Matrix3 ℚ) 5 * (![2, 1, 0, 1, 1, 0, 3, 4, 1] : Matrix3 ℚ) 7)
      - (![2, 1, 0, 1, 1, 0, 3, 4, 1] : Matrix3 ℚ) 3
        * ((![2, 1, 0, 1, 1, 0, 3, 4, 1] : Matrix3 ℚ) 1 * (![2, 1, 0, 1, 1, 0, 3, 4, 1] : Matrix3 ℚ) 8
          - (![2, 1, 0, 1, 1, 0, 3, 4, 1] : Matrix3 ℚ) 2 * (![2, 1, 0, 1, 1, 0, 3, 4, 1] : Matrix3 ℚ) 7)
      + (![2, 1, 0, 1, 1, 0, 3, 4, 1] : Matrix3 ℚ) 6
        * ((![2, 1, 0, 1, 1, 0, 3, 4, 1] : Matrix3 ℚ) 1 * (![2, 1, 0, 1, 1, 0, 3, 4, 1] : Matrix3 ℚ) 5
          - (![2, 1, 0, 1, 1, 0, 3, 4, 1] : Matrix3 ℚ) 2 * (![2, 1, 0, 1, 1, 0, 3, 4, 1] : Matrix3 ℚ) 4)
      ≠ 0 ∧
    (multiply (inverse (![2, 1, 0, 1, 1, 0, 3, 4, 1] : Matrix3 ℚ)) ![2, 1, 0, 1, 1, 0, 3, 4, 1]
        = identity ∧
      multiply (![2, 1, 0, 1, 1, 0, 3, 4, 1] : Matrix3 ℚ) (inverse ![2, 1, 0, 1, 1, 0, 3, 4, 1])
        = identity) :=
  ⟨by norm_num, C2_inverse_is_matrix_inverse _ (by norm_num)⟩

end C2

/-! ## C3: identity law -/

section C3

variable {F : Type} [Field F]

/-- C3: `identity()` is a two-sided unit of `multiply`: for every matrix `M`,
`multiply(identity(), M) = M` and `multiply(M, identity()) = M`. -/
theorem C3_identity_is_unit (M : Matrix3 F) :
    multiply identity M = M ∧ multiply M identity = M := by
  constructor
  · rw [multiply_apply]
    apply ext9 <;> simp [identity]
  · rw [multiply_apply]
    apply ext9 <;> simp [identity]

end C3

/-! ## C4: direction of `rotation` -/

section C4

/-- C4 (as stated) fails: `rotation(pi/2)` applied to `(1, 0)` gives `(0, -1)`; it is neither
`(0, 1)` nor the value `(x*cos t - y*sin t, x*sin t + y*cos t)` of the claim at `t = pi/2`,
`(x, y) = (1, 0)`. -/
theorem C4_counterexample :
    transformPoint (rotation (Real.pi / 2)) (1, 0) = (0, -1) ∧
    transformPoint (rotation (Real.pi / 2)) (1, 0) ≠ (0, 1) ∧
    transformPoint (rotation (Real.pi / 2)) (1, 0) ≠
      (1 * Real.cos (Real.pi / 2) - 0 * Real.sin (Real.pi / 2),
       1 * Real.sin (Real.pi / 2) + 0 * Real.cos (Real.pi / 2)) := by
  have h : transformPoint (rotation (Real.pi / 2)) (1, 0) = (0, -1) := by
    simp [transformPoint_apply, rotation]
  refine ⟨h, ?_, ?_⟩
  · rw [h]
    norm_num
  · rw [h]
    norm_num

/-- C4 (amended): for every angle `t` and point `(x, y)`,
`transformPoint(rotation(t), (x, y)) = (x*cos t + y*sin t, y*cos t - x*sin t)`, which is the
rotation by `-t` in the standard mathematical convention (clockwise when Y points up); in
particular `rotation(pi/2)` applied to `(1, 0)` gives `(0, -1)`. -/
theorem C4_rotation_transformPoint (t x y : ℝ) :
    transformPoint (rotation t) (x, y) =
      (x * Real.cos t + y * Real.sin t, y * Real.cos t - x * Real.sin t) ∧
    transformPoint (rotation t) (x, y) =
      (x * Real.cos (-t) - y * Real.sin (-t), x * Real.sin (-t) + y * Real.cos (-t)) ∧
    transformPoint (rotation (Real.pi / 2)) (1, 0) = (0, -1) := by
  have hd : ∀ u : ℝ, u / (x * 0 + y * 0 + 1) = u := by
    intro u
    rw [mul_zero, mul_zero, add_zero, zero_add, div_one]
  refine ⟨?_, ?_, ?_⟩
  · simp only [transformPoint_apply, rotation, vec9_0, vec9_1, vec9_2, vec9_3, vec9_4, vec9_5,
      vec9_6, vec9_7, vec9_8, Prod.mk.injEq, hd]
    constructor <;> ring
  · simp only [transformPoint_apply, rotation, vec9_0, vec9_1, vec9_2, vec9_3, vec9_4, vec9_5,
      vec9_6, vec9_7, vec9_8, Prod.mk.injEq, Real.cos_neg, Real.sin_neg, hd]
    constructor <;> ring
  · simp [transformPoint_apply, rotation]

end C4

/-! ## C5: `projection` maps the pixel rectangle onto the clip square -/

section C5

variable {F : Type} [LinearOrderedField F]

/-- C5: for `width > 0`, `height > 0` and `0 <= x <= width`, `0 <= y <= height`, both
coordinates of `transformPoint(projection(width, height), (x, y))` lie in `[-1, 1]`; the pixel
`(0, 0)` maps to `(-1, 1)` and the pixel `(width, height)` maps to `(1, -1)`. -/
theorem C5_projection_clip_square (width height x y : F)
    (hw : 0 < width) (hh : 0 < height)
    (hx0 : 0 ≤ x) (hx1 : x ≤ width) (hy0 : 0 ≤ y) (hy1 : y ≤ height) :
    (-1 ≤ (transformPoint (projection width height) (x, y)).1 ∧
      (transformPoint (projection width height) (x, y)).1 ≤ 1 ∧
      -1 ≤ (transformPoint (projection width height) (x, y)).2 ∧
      (transformPoint (projection width height) (x, y)).2 ≤ 1) ∧
    transformPoint (projection width height) (0, 0) = (-1, 1) ∧
    transformPoint (projection width height) (width, height) = (1, -1) := by
  have hw0 : width ≠ 0 := ne_of_gt hw
  have hh0 : height ≠ 0 := ne_of_gt hh
  have hxw : 0 ≤ x / width := div_nonneg hx0 hw.le
  have hxw1 : x / width ≤ 1 := (div_le_one hw).mpr hx1
  have hyh : 0 ≤ y / height := div_nonneg hy0 hh.le
  have hyh1 : y / height ≤ 1 := (div_le_one hh).mpr hy1
  have e1 : (transformPoint (projection width height) (x, y)).1 = 2 * (x / width) - 1 := by
    simp [transformPoint_apply, projection]
    field_simp
    ring
  have e2 : (transformPoint (projection width height) (x, y)).2 = 1 - 2 * (y / height) := by
    simp [transformPoint_apply, projection]
    field_simp
    ring
  refine ⟨⟨?_, ?_, ?_, ?_⟩, ?_, ?_⟩
  · rw [e1]; linarith
  · rw [e1]; linarith
  · rw [e2]; linarith
  · rw [e2]; linarith
  · simp [transformPoint_apply, projection]
  · simp [transformPoint_apply, projection]
    constructor
    · field_simp
      ring
    · field_simp
      ring

/-- C5 at `projection(100, 200)` and the pixel `(25, 150)`. -/
theorem C5_projection_clip_square_witness :
    ((0 : ℚ) < 100 ∧ (0 : ℚ) < 200 ∧ (0 : ℚ) ≤ 25 ∧ (25 : ℚ) ≤ 100 ∧ (0 : ℚ) ≤ 150 ∧
      (150 : ℚ) ≤ 200) ∧
    ((-1 ≤ (transformPoint (projection (100 : ℚ) 200) (25, 150)).1 ∧
      (transformPoint (projection (100 : ℚ) 200) (25, 150)).1 ≤ 1 ∧
      -1 ≤ (transformPoint (projection (100 : ℚ) 200) (25, 150)).2 ∧
      (transformPoint (projection (100 : ℚ) 200) (25, 150)).2 ≤ 1) ∧
    transformPoint (projection (100 : ℚ) 200) (0, 0) = (-1, 1) ∧
    transformPoint (projection (100 : ℚ) 200) (100, 200) = (1, -1)) :=
  ⟨by norm_num, C5_projection_clip_square 100 200 25 150 (by norm_num) (by norm_num)
    (by norm_num) (by norm_num) (by norm_num) (by norm_num)⟩

end C5

/-! ## C6: `translation` -/

section C6

variable {F : Type} [Field F]

/-- C6: `translation(tx, ty)` moves every point by `(tx, ty)`:
`transformPoint(translation(tx, ty), (x, y)) = (x + tx, y + ty)`; in particular
`translation(5, 7)` applied to `(0, 0)` gives `(5, 7)`. -/
theorem C6_translation_moves_points (tx ty x y : F) :
    transformPoint (translation tx ty) (x, y) = (x + tx, y + ty) ∧
    transformPoint (translation (5 : F) 7) (0, 0) = (5, 7) := by
  constructor <;> simp [transformPoint_apply, translation]

end C6

/-! ## C7: `transformPoint` on affine matrices -/

section C7

variable {F : Type} [Field F]

/-- C7: for every matrix `m` with `m[2] = 0`, `m[5] = 0`, `m[8] = 1` and every point
`(v0, v1)`, the homogeneous divisor of `transformPoint` is exactly 1 and
`transformPoint(m, (v0, v1)) = (v0*m[0] + v1*m[3] + m[6], v0*m[1] + v1*m[4] + m[7])`; in
particular `transformPoint(identity(), (x, y)) = (x, y)` for all `x`, `y`. -/
theorem C7_transformPoint_affine (m : Matrix3 F) (v0 v1 : F)
    (h2 : m 2 = 0) (h5 : m 5 = 0) (h8 : m 8 = 1) :
    transformPointDivisor m (v0, v1) = 1 ∧
    transformPoint m (v0, v1) = (v0 * m 0 + v1 * m 3 + m 6, v0 * m 1 + v1 * m 4 + m 7) ∧
    ∀ x y : F, transformPoint identity (x, y) = (x, y) := by
  refine ⟨?_, ?_, ?_⟩
  · simp [transformPointDivisor_apply, h2, h5, h8]
  · exact transformPoint_of_isAffine m (v0, v1) ⟨h2, h5, h8⟩
  · intro x y
    simp [transformPoint_apply, identity]

/-- C7 at the matrix `[2,1,0, 1,1,0, 3,4,1]` and the point `(5, 6)`. -/
theorem C7_transformPoint_affine_witness :
    ((![2, 1, 0, 1, 1, 0, 3, 4, 1] : Matrix3 ℚ) 2 = 0 ∧
      (![2, 1, 0, 1, 1, 0, 3, 4, 1] : Matrix3 ℚ) 5 = 0 ∧
      (![2, 1, 0, 1, 1, 0, 3, 4, 1] : Matrix3 ℚ) 8 = 1) ∧
    transformPoint (![2, 1, 0, 1, 1, 0, 3, 4, 1] : Matrix3 ℚ) (5, 6) = (19, 15) := by
  refine ⟨⟨rfl, rfl, rfl⟩, ?_⟩
  have h := (C7_transformPoint_affine (![2, 1, 0, 1, 1, 0, 3, 4, 1] : Matrix3 ℚ) 5 6
    rfl rfl rfl).2.1
  rw [h]
  simp
  norm_num

end C7

/-! ## C8 - C10: `distance` and `normalize` -/

section Distance

/-- The value of `distance(0, 0, x, y)`. -/
theorem distance_origin (x y : ℝ) : distance 0 0 x y = Real.sqrt (x * x + y * y) := by
  have e : (0 - x) * (0 - x) + (0 - y) * (0 - y) = x * x + y * y := by ring
  show Real.sqrt ((0 - x) * (0 - x) + (0 - y) * (0 - y)) = Real.sqrt (x * x + y * y)
  rw [e]

theorem distance_origin_3_4 : distance 0 0 3 4 = 5 := by
  rw [distance_origin, show (3 : ℝ) * 3 + 4 * 4 = 5 ^ 2 by norm_num]
  exact Real.sqrt_sq (by norm_num)

theorem distance_origin_x_0 (x : ℝ) (hx : 0 ≤ x) : distance 0 0 x 0 = x := by
  rw [distance_origin, mul_zero, add_zero]
  exact Real.sqrt_mul_self hx

end Distance

section C8

/-- C8: with `len = distance(0, 0, x, y)`, `normalize(x, y) = (0, 0)` when `len <= 0.00001`
(so `normalize(0, 0) = (0, 0)`), and `normalize(x, y) = (x/len, y/len)` when
`len > 0.00001`. -/
theorem C8_normalize_threshold (x y : ℝ) :
    (distance 0 0 x y ≤ 0.00001 → normalize x y = (0, 0)) ∧
    (distance 0 0 x y > 0.00001 →
      normalize x y = (x / distance 0 0 x y, y / distance 0 0 x y)) ∧
    normalize 0 0 = (0, 0) := by
  refine ⟨?_, ?_, ?_⟩
  · intro h
    unfold normalize
    simp only
    rw [if_neg (not_lt.mpr h)]
  · intro h
    unfold normalize
    simp only
    rw [if_pos h]
  · unfold normalize
    simp only
    rw [if_neg]
    rw [distance_origin_x_0 0 le_rfl]
    norm_num

/-- C8 at the threshold: the vector `(0.00001, 0)` has length exactly `0.00001` and is sent to
`(0, 0)`, while `(3, 4)` has length `5` and is sent to `(3/5, 4/5)`. -/
theorem C8_normalize_threshold_witness :
    (distance 0 0 0.00001 0 ≤ 0.00001 ∧ normalize 0.00001 0 = (0, 0)) ∧
    (distance 0 0 3 4 > 0.00001 ∧ normalize 3 4 = (3 / 5, 4 / 5)) := by
  have h1 : distance 0 0 0.00001 0 ≤ 0.00001 :=
    le_of_eq (distance_origin_x_0 0.00001 (by norm_num))
  have h2 : distance 0 0 3 4 > 0.00001 := by
    rw [distance_origin_3_4]
    norm_num
  refine ⟨⟨h1, (C8_normalize_threshold 0.00001 0).1 h1⟩, h2, ?_⟩
  have h := (C8_normalize_threshold 3 4).2.1 h2
  rw [distance_origin_3_4] at h
  exact h

end C8

section C9

/-- C9: for every `(x, y)` whose length `distance(0, 0, x, y)` is greater than `0.00001`, the
result of `normalize(x, y)` has length one. -/
theorem C9_normalize_unit_length (x y : ℝ) (h : distance 0 0 x y > 0.00001) :
    distance 0 0 (normalize x y).1 (normalize x y).2 = 1 := by
  have hn : normalize x y = (x / distance 0 0 x y, y / distance 0 0 x y) := by
    unfold normalize
    simp only
    rw [if_pos h]
  have hpos : 0 < distance 0 0 x y := lt_trans (by norm_num) h
  have hne : distance 0 0 x y ≠ 0 := ne_of_gt hpos
  have hsq : distance 0 0 x y * distance 0 0 x y = x * x + y * y := by
    rw [distance_origin]
    exact Real.mul_self_sqrt (add_nonneg (mul_self_nonneg x) (mul_self_nonneg y))
  rw [hn]
  simp only
  rw [distance_origin]
  have e : x / distance 0 0 x y * (x / distance 0 0 x y)
      + y / distance 0 0 x y * (y / distance 0 0 x y) = 1 := by
    field_simp
    rw [hsq]
  rw [e, Real.sqrt_one]

/-- C9 at the vector `(3, 4)` of length `5`. -/
theorem C9_normalize_unit_length_witness :
    distance 0 0 3 4 > 0.00001 ∧
    distance 0 0 (normalize 3 4).1 (normalize 3 4).2 = 1 :=
  have h : distance 0 0 3 4 > 0.00001 := by
    rw [distance_origin_3_4]
    norm_num
  ⟨h, C9_normalize_unit_length 3 4 h⟩

end C9

section C10

/-- C10: for all real `x1`, `y1`, `x2`, `y2`, `distance(x1, y1, x2, y2) >= 0`, and the
distance is `0` if and only if `x1 = x2` and `y1 = y2`. -/
theorem C10_distance_nonneg_zero_iff (x1 y1 x2 y2 : ℝ) :
    0 ≤ distance x1 y1 x2 y2 ∧
    (distance x1 y1 x2 y2 = 0 ↔ x1 = x2 ∧ y1 = y2) := by
  have hnn : 0 ≤ (x1 - x2) * (x1 - x2) + (y1 - y2) * (y1 - y2) :=
    add_nonneg (mul_self_nonneg _) (mul_self_nonneg _)
  constructor
  · exact Real.sqrt_nonneg _
  · unfold distance
    simp only
    rw [Real.sqrt_eq_zero hnn]
    constructor
    · intro h
      have hx : (x1 - x2) * (x1 - x2) = 0 := by
        nlinarith [mul_self_nonneg (x1 - x2), mul_self_nonneg (y1 - y2)]
      have hy : (y1 - y2) * (y1 - y2) = 0 := by
        nlinarith [mul_self_nonneg (x1 - x2), mul_self_nonneg (y1 - y2)]
      exact ⟨sub_eq_zero.mp (mul_self_eq_zero.mp hx), sub_eq_zero.mp (mul_self_eq_zero.mp hy)⟩
    · rintro ⟨rfl, rfl⟩
      ring

end C10

/-! ## C11: symmetry of `distance` -/

section C11

/-- C11: `distance` is symmetric in its two points: for all `a`, `b`, `c`, `d`,
`distance(a, b, c, d) = distance(c, d, a, b)`. -/
theorem C11_distance_symmetric (a b c d : ℝ) :
    distance a b c d = distance c d a b := by
  have e : (a - c) * (a - c) + (b - d) * (b - d) = (c - a) * (c - a) + (d - b) * (d - b) := by
    ring
  show Real.sqrt ((a - c) * (a - c) + (b - d) * (b - d))
    = Real.sqrt ((c - a) * (c - a) + (d - b) * (d - b))
  rw [e]

end C11

/-! ## C12: angle conversion round trip -/

section C12

/-- C12: angle conversion round-trips: `radToDeg(degToRad(d)) = d` for every `d`, and
`degToRad(radToDeg(r)) = r` for every `r`. -/
theorem C12_angle_roundtrip (d r : ℝ) :
    radToDeg (degToRad d) = d ∧ degToRad (radToDeg r) = r := by
  have hpi : Real.pi ≠ 0 := Real.pi_ne_zero
  constructor
  · show d * Real.pi / 180 * 180 / Real.pi = d
    field_simp
  · show r * 180 / Real.pi * Real.pi / 180 = r
    field_simp

end C12

/-! ## C13: `reflect` mirrors about the surface -/

section C13

variable {F : Type} [Field F]

/-- C13: for every incident vector `(ix, iy)` and every unit normal `(nx, ny)`
(`nx*nx + ny*ny = 1`), the result `r = reflect(ix, iy, nx, ny)` has its component along the
normal negated, `dot(r[0], r[1], nx, ny) = -dot(ix, iy, nx, ny)`, and its component along the
surface unchanged, `r[0]*ny - r[1]*nx = ix*ny - iy*nx`; in particular
`reflect(1, -1, 0, 1) = (1, 1)`. -/
theorem C13_reflect_mirrors (ix iy nx ny : F) (hn : nx * nx + ny * ny = 1) :
    dot (reflect ix iy nx ny).1 (reflect ix iy nx ny).2 nx ny = -dot ix iy nx ny ∧
    (reflect ix iy nx ny).1 * ny - (reflect ix iy nx ny).2 * nx = ix * ny - iy * nx ∧
    reflect (1 : F) (-1) 0 1 = (1, 1) := by
  refine ⟨?_, ?_, ?_⟩
  · show (ix - 2 * (nx * ix + ny * iy) * nx) * nx + (iy - 2 * (nx * ix + ny * iy) * ny) * ny
      = -(ix * nx + iy * ny)
    have e : (ix - 2 * (nx * ix + ny * iy) * nx) * nx + (iy - 2 * (nx * ix + ny * iy) * ny) * ny
        = (ix * nx + iy * ny) * (1 - 2 * (nx * nx + ny * ny)) := by ring
    rw [e, hn]
    ring
  · show (ix - 2 * (nx * ix + ny * iy) * nx) * ny - (iy - 2 * (nx * ix + ny * iy) * ny) * nx
      = ix * ny - iy * nx
    ring
  · show ((1 : F) - 2 * (0 * 1 + 1 * (-1)) * 0, (-1 : F) - 2 * (0 * 1 + 1 * (-1)) * 1) = (1, 1)
    rw [Prod.mk.injEq]
    constructor <;> ring

/-- C13 at the incident vector `(2, -3)` and the unit normal `(3/5, 4/5)`. -/
theorem C13_reflect_mirrors_witness :
    (3 / 5 : ℚ) * (3 / 5) + (4 / 5) * (4 / 5) = 1 ∧
    (dot (reflect (2 : ℚ) (-3) (3 / 5) (4 / 5)).1 (reflect (2 : ℚ) (-3) (3 / 5) (4 / 5)).2
        (3 / 5) (4 / 5) = -dot 2 (-3) (3 / 5) (4 / 5) ∧
      (reflect (2 : ℚ) (-3) (3 / 5) (4 / 5)).1 * (4 / 5)
          - (reflect (2 : ℚ) (-3) (3 / 5) (4 / 5)).2 * (3 / 5)
        = 2 * (4 / 5) - (-3) * (3 / 5) ∧
      reflect (1 : ℚ) (-1) 0 1 = (1, 1)) :=
  ⟨by norm_num, C13_reflect_mirrors 2 (-3) (3 / 5) (4 / 5) (by norm_num)⟩

end C13

/-! ## C14: `multiply` does not commute -/

section C14

/-- C14: `multiply` is not commutative on rotation and translation: for the angle `pi` and
the offsets `(1, 0)` the products `multiply(rotation(pi), translation(1, 0))` and
`multiply(translation(1, 0), rotation(pi))` differ, and they send the point `(0, 0)` to the
different images `(-1, 0)` and `(1, 0)`. -/
theorem C14_multiply_not_commutative :
    ∃ t tx ty : ℝ,
      multiply (rotation t) (translation tx ty) ≠ multiply (translation tx ty) (rotation t) ∧
      ∃ v : Point2 ℝ,
        transformPoint (multiply (rotation t) (translation tx ty)) v ≠
          transformPoint (multiply (translation tx ty) (rotation t)) v := by
  refine ⟨Real.pi, 1, 0, ?_, (0, 0), ?_⟩
  · intro h
    have h6 := congrFun h 6
    simp [multiply_apply, rotation, translation] at h6
    norm_num at h6
  · simp [transformPoint_apply, multiply_apply, rotation, translation]
    norm_num

end C14

/-! ## C16: `multiply` pre-composes `b` with `a`, perspective divide included -/

section C16

variable {F : Type} [Field F]

/-- C16: for all matrices `a`, `b` and every point `v` whose homogeneous divisors are
non-zero (`v0*b[2] + v1*b[5] + b[8] != 0` and the divisor of `multiply(a, b)` at `v` is
non-zero), `transformPoint(multiply(a, b), v) = transformPoint(a, transformPoint(b, v))`:
`b` is applied to the point first and `a` second.  Matrices with third column `(0, 0, 1)`
satisfy both conditions, their divisors being 1. -/
theorem C16_multiply_precomposes (a b : Matrix3 F) (v : Point2 F) :
    (v.1 * b 2 + v.2 * b 5 + b 8 ≠ 0 →
      transformPointDivisor (multiply a b) v ≠ 0 →
      transformPoint (multiply a b) v = transformPoint a (transformPoint b v)) ∧
    (IsAffine a → IsAffine b →
      v.1 * b 2 + v.2 * b 5 + b 8 = 1 ∧ transformPointDivisor (multiply a b) v = 1) := by
  constructor
  · intro hb hab
    rw [transformPointDivisor_apply] at hab
    simp only [multiply_apply, vec9_2, vec9_5, vec9_8] at hab
    have hq : (v.1 * b 0 + v.2 * b 3 + b 6) / (v.1 * b 2 + v.2 * b 5 + b 8) * a 2
        + (v.1 * b 1 + v.2 * b 4 + b 7) / (v.1 * b 2 + v.2 * b 5 + b 8) * a 5 + a 8 ≠ 0 := by
      intro h0
      apply hab
      field_simp at h0
      linear_combination h0
    simp only [transformPoint_apply, multiply_apply, vec9_0, vec9_1, vec9_2, vec9_3, vec9_4,
      vec9_5, vec9_6, vec9_7, vec9_8, Prod.mk.injEq]
    constructor
    · rw [div_eq_div_iff hab hq]
      field_simp
      ring
    · rw [div_eq_div_iff hab hq]
      field_simp
      ring
  · rintro ⟨a2, a5, a8⟩ ⟨b2, b5, b8⟩
    constructor
    · rw [b2, b5, b8]
      ring
    · rw [transformPointDivisor_apply]
      simp only [multiply_apply, vec9_2, vec9_5, vec9_8, a2, a5, a8, b2, b5, b8]
      ring

/-- C16 at two matrices with a non-trivial third column,
`a = [1,0,1, 0,1,0, 0,0,1]` and `b = [2,0,0, 0,1,1, 3,4,1]`, and the point `(1, 1)`:
both sides are `(5/7, 5/7)`. -/
theorem C16_multiply_precomposes_witness :
    ((1 : ℚ) * (![2, 0, 0, 0, 1, 1, 3, 4, 1] : Matrix3 ℚ) 2
        + 1 * (![2, 0, 0, 0, 1, 1, 3, 4, 1] : Matrix3 ℚ) 5
        + (![2, 0, 0, 0, 1, 1, 3, 4, 1] : Matrix3 ℚ) 8 ≠ 0) ∧
    transformPointDivisor
      (multiply (![1, 0, 1, 0, 1, 0, 0, 0, 1] : Matrix3 ℚ) ![2, 0, 0, 0, 1, 1, 3, 4, 1])
      (1, 1) ≠ 0 ∧
    transformPoint
      (multiply (![1, 0, 1, 0, 1, 0, 0, 0, 1] : Matrix3 ℚ) ![2, 0, 0, 0, 1, 1, 3, 4, 1])
      (1, 1) = (5 / 7, 5 / 7) ∧
    transformPoint (![1, 0, 1, 0, 1, 0, 0, 0, 1] : Matrix3 ℚ)
      (transformPoint ![2, 0, 0, 0, 1, 1, 3, 4, 1] (1, 1)) = (5 / 7, 5 / 7) := by
  have hb : (1 : ℚ) * (![2, 0, 0, 0, 1, 1, 3, 4, 1] : Matrix3 ℚ) 2
      + 1 * (![2, 0, 0, 0, 1, 1, 3, 4, 1] : Matrix3 ℚ) 5
      + (![2, 0, 0, 0, 1, 1, 3, 4, 1] : Matrix3 ℚ) 8 ≠ 0 := by
    norm_num
  have hab : transformPointDivisor
      (multiply (![1, 0, 1, 0, 1, 0, 0, 0, 1] : Matrix3 ℚ) ![2, 0, 0, 0, 1, 1, 3, 4, 1])
      (1, 1) ≠ 0 := by
    rw [transformPointDivisor_apply, multiply_apply]
    norm_num
  have hl : transformPoint
      (multiply (![1, 0, 1, 0, 1, 0, 0, 0, 1] : Matrix3 ℚ) ![2, 0, 0, 0, 1, 1, 3, 4, 1])
      (1, 1) = (5 / 7, 5 / 7) := by
    rw [transformPoint_apply, multiply_apply]
    norm_num
  have h := (C16_multiply_precomposes (![1, 0, 1, 0, 1, 0, 0, 0, 1] : Matrix3 ℚ)
    ![2, 0, 0, 0, 1, 1, 3, 4, 1] (1, 1)).1 hb hab
  exact ⟨hb, hab, hl, h ▸ hl⟩

end C16

/-! ## C17: associativity of `multiply` -/

section C17

variable {F : Type} [Field F]

/-- C17: `multiply` is associative: for all matrices `a`, `b`, `c`,
`multiply(multiply(a, b), c) = multiply(a, multiply(b, c))`. -/
theorem C17_multiply_assoc (a b c : Matrix3 F) :
    multiply (multiply a b) c = multiply a (multiply b c) := by
  rw [multiply_apply (multiply a b) c, multiply_apply a (multiply b c), multiply_apply a b,
    multiply_apply b c]
  apply ext9 <;> simp only [vec9_0, vec9_1, vec9_2, vec9_3, vec9_4, vec9_5, vec9_6, vec9_7,
    vec9_8] <;> ring

end C17

/-! ## C18 - C19: affine matrices -/

section Affine

variable {F : Type} [Field F]

/-- The product of two matrices with third column `(0, 0, 1)` has third column `(0, 0, 1)`. -/
theorem isAffine_multiply (a b : Matrix3 F) (ha : IsAffine a) (hb : IsAffine b) :
    IsAffine (multiply a b) := by
  obtain ⟨a2, a5, a8⟩ := ha
  obtain ⟨b2, b5, b8⟩ := hb
  simp [IsAffine, multiply_apply, a2, a5, a8, b2, b5, b8]

theorem isAffine_translation (tx ty : F) : IsAffine (translation tx ty) :=
  ⟨rfl, rfl, rfl⟩

theorem isAffine_scaling (sx sy : F) : IsAffine (scaling sx sy) :=
  ⟨rfl, rfl, rfl⟩

theorem isAffine_projection (width height : F) : IsAffine (projection width height) :=
  ⟨rfl, rfl, rfl⟩

theorem isAffine_rotation (t : ℝ) : IsAffine (rotation t) :=
  ⟨rfl, rfl, rfl⟩

/-- The inverse of a matrix with third column `(0, 0, 1)` and non-zero `m[0]*m[4] - m[1]*m[3]`
has third column `(0, 0, 1)`. -/
theorem isAffine_inverse (m : Matrix3 F) (hm : IsAffine m)
    (hdet : m 0 * m 4 - m 1 * m 3 ≠ 0) : IsAffine (inverse m) := by
  obtain ⟨h2, h5, h8⟩ := hm
  rw [inverse_apply]
  simp only [IsAffine, vec9_2, vec9_5, vec9_8, h2, h5, h8]
  refine ⟨?_, ?_, ?_⟩
  · ring
  · ring
  · have e : m 0 * (m 4 * 1 - 0 * m 7) - m 3 * (m 1 * 1 - 0 * m 7) + m 6 * (m 1 * 0 - 0 * m 4)
        = m 0 * m 4 - m 1 * m 3 := by ring
    rw [e]
    field_simp

end Affine

section C18

variable {F : Type} [Field F]

/-- C18: matrices with third column `(0, 0, 1)` are closed under the operations of the module:
`identity()`, `translation`, `rotation`, `scaling` and `projection` return such a matrix; if
`a` and `b` are such matrices then so is `multiply(a, b)`, hence `translate`, `rotate`, `scale`
and `project` of such an `m`; and if `m` is such a matrix with `m[0]*m[4] - m[1]*m[3] != 0`
then so is `inverse(m)`. -/
theorem C18_affine_closed :
    (IsAffine (identity : Matrix3 F) ∧
      (∀ tx ty : F, IsAffine (translation tx ty)) ∧
      (∀ t : ℝ, IsAffine (rotation t)) ∧
      (∀ sx sy : F, IsAffine (scaling sx sy)) ∧
      (∀ width height : F, IsAffine (projection width height))) ∧
    (∀ a b : Matrix3 F, IsAffine a → IsAffine b → IsAffine (multiply a b)) ∧
    ((∀ (m : Matrix3 F) (tx ty : F), IsAffine m → IsAffine (translate m tx ty)) ∧
      (∀ (m : Matrix3 ℝ) (t : ℝ), IsAffine m → IsAffine (rotate m t)) ∧
      (∀ (m : Matrix3 F) (sx sy : F), IsAffine m → IsAffine (scale m sx sy)) ∧
      (∀ (m : Matrix3 F) (width height : F), IsAffine m → IsAffine (project m width height))) ∧
    (∀ m : Matrix3 F, IsAffine m → m 0 * m 4 - m 1 * m 3 ≠ 0 → IsAffine (inverse m)) := by
  refine ⟨⟨⟨rfl, rfl, rfl⟩, isAffine_translation, isAffine_rotation, isAffine_scaling,
    isAffine_projection⟩, isAffine_multiply, ⟨?_, ?_, ?_, ?_⟩, isAffine_inverse⟩
  · intro m tx ty hm
    exact isAffine_multiply m _ hm (isAffine_translation tx ty)
  · intro m t hm
    exact isAffine_multiply m _ hm (isAffine_rotation t)
  · intro m sx sy hm
    exact isAffine_multiply m _ hm (isAffine_scaling sx sy)
  · intro m width height hm
    exact isAffine_multiply m _ hm (isAffine_projection width height)

/-- C18 at `m = [2,1,0, 1,1,0, 3,4,1]`: `m`, `multiply(m, m)` and `inverse(m)` all have third
column `(0, 0, 1)`. -/
theorem C18_affine_closed_witness :
    IsAffine (![2, 1, 0, 1, 1, 0, 3, 4, 1] : Matrix3 ℚ) ∧
    (![2, 1, 0, 1, 1, 0, 3, 4, 1] : Matrix3 ℚ) 0 * (![2, 1, 0, 1, 1, 0, 3, 4, 1] : Matrix3 ℚ) 4
      - (![2, 1, 0, 1, 1, 0, 3, 4, 1] : Matrix3 ℚ) 1 * (![2, 1, 0, 1, 1, 0, 3, 4, 1] : Matrix3 ℚ) 3
      ≠ 0 ∧
    IsAffine (multiply (![2, 1, 0, 1, 1, 0, 3, 4, 1] : Matrix3 ℚ) ![2, 1, 0, 1, 1, 0, 3, 4, 1]) ∧
    IsAffine (inverse (![2, 1, 0, 1, 1, 0, 3, 4, 1] : Matrix3 ℚ)) :=
  have hm : IsAffine (![2, 1, 0, 1, 1, 0, 3, 4, 1] : Matrix3 ℚ) := ⟨rfl, rfl, rfl⟩
  have hd : (![2, 1, 0, 1, 1, 0, 3, 4, 1] : Matrix3 ℚ) 0
      * (![2, 1, 0, 1, 1, 0, 3, 4, 1] : Matrix3 ℚ) 4
      - (![2, 1, 0, 1, 1, 0, 3, 4, 1] : Matrix3 ℚ) 1
      * (![2, 1, 0, 1, 1, 0, 3, 4, 1] : Matrix3 ℚ) 3 ≠ 0 := by norm_num
  ⟨hm, hd, (@C18_affine_closed ℚ _).2.1 _ _ hm hm, (@C18_affine_closed ℚ _).2.2.2 _ hm hd⟩

end C18

section C19

variable {F : Type} [Field F]

/-- C19: for every matrix `m` with third column `(0, 0, 1)` and
`m[0]*m[4] - m[1]*m[3] != 0`, and every point `v`,
`transformPoint(inverse(m), transformPoint(m, v)) = v` and
`transformPoint(m, transformPoint(inverse(m), v)) = v`. -/
theorem C19_inverse_undoes_transformPoint (m : Matrix3 F) (v : Point2 F)
    (hm : IsAffine m) (hdet : m 0 * m 4 - m 1 * m 3 ≠ 0) :
    transformPoint (inverse m) (transformPoint m v) = v ∧
    transformPoint m (transformPoint (inverse m) v) = v := by
  have hi : IsAffine (inverse m) := isAffine_inverse m hm hdet
  obtain ⟨v0, v1⟩ := v
  obtain ⟨h2, h5, h8⟩ := hm
  have e : m 0 * (m 4 * 1 - 0 * m 7) - m 3 * (m 1 * 1 - 0 * m 7) + m 6 * (m 1 * 0 - 0 * m 4)
      = m 0 * m 4 - m 1 * m 3 := by ring
  constructor
  · rw [transformPoint_of_isAffine _ _ hi, transformPoint_of_isAffine _ _ ⟨h2, h5, h8⟩,
      inverse_apply]
    simp only [vec9_0, vec9_1, vec9_3, vec9_4, vec9_6, vec9_7, h2, h5, h8, e, Prod.mk.injEq]
    constructor
    · field_simp
      ring
    · field_simp
      ring
  · rw [transformPoint_of_isAffine _ _ ⟨h2, h5, h8⟩, transformPoint_of_isAffine _ _ hi,
      inverse_apply]
    simp only [vec9_0, vec9_1, vec9_3, vec9_4, vec9_6, vec9_7, h2, h5, h8, e, Prod.mk.injEq]
    constructor
    · field_simp
      ring
    · field_simp
      ring

/-- C19 at `m = [2,1,0, 1,1,0, 3,4,1]` and the point `(5, 6)`. -/
theorem C19_inverse_undoes_transformPoint_witness :
    IsAffine (![2, 1, 0, 1, 1, 0, 3, 4, 1] : Matrix3 ℚ) ∧
    (![2, 1, 0, 1, 1, 0, 3, 4, 1] : Matrix3 ℚ) 0 * (![2, 1, 0, 1, 1, 0, 3, 4, 1] : Matrix3 ℚ) 4
      - (![2, 1, 0, 1, 1, 0, 3, 4, 1] : Matrix3 ℚ) 1 * (![2, 1, 0, 1, 1, 0, 3, 4, 1] : Matrix3 ℚ) 3
      ≠ 0 ∧
    (transformPoint (inverse (![2, 1, 0, 1, 1, 0, 3, 4, 1] : Matrix3 ℚ))
        (transformPoint ![2, 1, 0, 1, 1, 0, 3, 4, 1] (5, 6)) = (5, 6) ∧
      transformPoint (![2, 1, 0, 1, 1, 0, 3, 4, 1] : Matrix3 ℚ)
        (transformPoint (inverse ![2, 1, 0, 1, 1, 0, 3, 4, 1]) (5, 6)) = (5, 6)) :=
  ⟨⟨rfl, rfl, rfl⟩, by norm_num,
    C19_inverse_undoes_transformPoint _ (5, 6) ⟨rfl, rfl, rfl⟩ (by norm_num)⟩

end C19

/-! ## C20: `reflect` is a length-preserving involution for a unit normal -/

section C20

variable {F : Type} [Field F] [CharZero F]

/-- C20: for every `(ix, iy)` and every `(nx, ny)` with `nx*nx + ny*ny = 1`, writing
`r = reflect(ix, iy, nx, ny)`, `reflect(r[0], r[1], nx, ny) = (ix, iy)` and
`r[0]*r[0] + r[1]*r[1] = ix*ix + iy*iy`; for some non-unit normal both equalities fail
(the normal `(2, 0)` with the incident vector `(1, 0)`). -/
theorem C20_reflect_involution (ix iy nx ny : F) (hn : nx * nx + ny * ny = 1) :
    (reflect (reflect ix iy nx ny).1 (reflect ix iy nx ny).2 nx ny = (ix, iy) ∧
      (reflect ix iy nx ny).1 * (reflect ix iy nx ny).1
          + (reflect ix iy nx ny).2 * (reflect ix iy nx ny).2
        = ix * ix + iy * iy) ∧
    ∃ jx jy mx my : F, mx * mx + my * my ≠ 1 ∧
      reflect (reflect jx jy mx my).1 (reflect jx jy mx my).2 mx my ≠ (jx, jy) ∧
      (reflect jx jy mx my).1 * (reflect jx jy mx my).1
          + (reflect jx jy mx my).2 * (reflect jx jy mx my).2
        ≠ jx * jx + jy * jy := by
  have hr : ∀ jx jy mx my : F, reflect jx jy mx my
      = (jx - 2 * (mx * jx + my * jy) * mx, jy - 2 * (mx * jx + my * jy) * my) := by
    intro jx jy mx my
    rfl
  refine ⟨⟨?_, ?_⟩, 1, 0, 2, 0, ?_, ?_, ?_⟩
  · simp only [hr, Prod.mk.injEq]
    constructor
    · linear_combination (4 * nx * (nx * ix + ny * iy)) * hn
    · linear_combination (4 * ny * (nx * ix + ny * iy)) * hn
  · simp only [hr]
    linear_combination (4 * (nx * ix + ny * iy) ^ 2) * hn
  · norm_num
  · simp only [hr, Prod.mk.injEq]
    norm_num
  · simp only [hr]
    norm_num

/-- C20 at the incident vector `(2, -3)` and the unit normal `(3/5, 4/5)`. -/
theorem C20_reflect_involution_witness :
    (3 / 5 : ℚ) * (3 / 5) + (4 / 5) * (4 / 5) = 1 ∧
    reflect (reflect (2 : ℚ) (-3) (3 / 5) (4 / 5)).1 (reflect (2 : ℚ) (-3) (3 / 5) (4 / 5)).2
      (3 / 5) (4 / 5) = (2, -3) ∧
    (reflect (2 : ℚ) (-3) (3 / 5) (4 / 5)).1 * (reflect (2 : ℚ) (-3) (3 / 5) (4 / 5)).1
        + (reflect (2 : ℚ) (-3) (3 / 5) (4 / 5)).2 * (reflect (2 : ℚ) (-3) (3 / 5) (4 / 5)).2
      = 2 * 2 + (-3) * (-3) :=
  ⟨by norm_num, (C20_reflect_involution (2 : ℚ) (-3) (3 / 5) (4 / 5) (by norm_num)).1⟩

end C20

end M3
